import Mathlib

/-!
Shallow embedding of `src/index.tsx` (Chipsaet/PHOTOSITE), a client-side
photo gallery.  The TypeScript source keeps two pieces of React state:
an ordered list of image slots (`ImageState[]`, seeded by `initialImages`)
and a layout mode (`'grid' | 'feed'`).  The mutations are
`handleImageUpdate` (replace one slot's `src` by id), `setLayout`
(overwrite the layout mode), and the DOM-level handler `handleFileChange`
(MIME validation of a selected file).  Startup checks for a `#root`
element and throws when it is missing.  Each definition below is a direct
translation of the corresponding source construct.
-/

namespace Photosite

/-- Embeds `type Layout = 'grid' | 'feed'` (src/index.tsx line 15). -/
inductive Layout where
  | grid
  | feed
deriving DecidableEq, Repr

/-- Embeds `interface ImageState { id: number; src: string | null }`
(src/index.tsx lines 5-8).  `null` becomes `none`. -/
structure ImageState where
  id : Nat
  src : Option String
deriving DecidableEq, Repr

/-- The combined React state of the `App` component: the `images` list and
the `layout` mode held by the two `useState` hooks (lines 96-97). -/
structure GalleryState where
  images : List ImageState
  layout : Layout
deriving DecidableEq, Repr

/-- Embeds `const INITIAL_IMAGE_COUNT = 16` (line 18). -/
def INITIAL_IMAGE_COUNT : Nat := 16

/-- The default placeholder reference for slot `n`:
`https://picsum.photos/seed/${i + 1}/600/600` with `n = i + 1` (line 22). -/
def placeholderSrc (n : Nat) : String :=
  "https://picsum.photos/seed/" ++ toString n ++ "/600/600"

/-- Embeds the `Array.from({ length: count }, (_, i) => ({ id: i + 1, src: ... }))`
construction of lines 20-23, generalised over the length as the spec's
`initialize(count)`; the source instantiates it at `INITIAL_IMAGE_COUNT`. -/
def makeImages (count : Nat) : List ImageState :=
  (List.range count).map (fun i => ⟨i + 1, some (placeholderSrc (i + 1))⟩)

/-- Embeds `const initialImages` (lines 20-23). -/
def initialImages : List ImageState :=
  makeImages INITIAL_IMAGE_COUNT

/-- The initial React state of `App`: `useState(initialImages)` and
`useState<Layout>('grid')` (lines 96-97). -/
def initialGalleryState : GalleryState :=
  ⟨initialImages, Layout.grid⟩

/-- Embeds `handleImageUpdate` (lines 99-103): `setImages(currentImages =>
currentImages.map(img => img.id === id ? { ...img, src } : img))`.
The spread `{ ...img, src }` keeps `id` and overwrites `src`; the layout
state is untouched. -/
def handleImageUpdate (id : Nat) (src : String) (st : GalleryState) : GalleryState :=
  ⟨st.images.map (fun img => if img.id = id then ⟨img.id, some src⟩ else img),
   st.layout⟩

/-- Embeds the `setLayout` state setter (line 97), invoked with a constant
mode from the two toggle buttons (lines 128 and 138): it overwrites the
layout mode and leaves the images untouched. -/
def setLayout (m : Layout) (st : GalleryState) : GalleryState :=
  ⟨st.images, m⟩

/-- A selected file as the handler sees it: only the declared MIME type
(`file.type`) is inspected by the source. -/
structure JsFile where
  type : String
deriving DecidableEq, Repr

/-- JavaScript `String.prototype.startsWith(pre)` as used on line 36:
`s` begins with the characters of `pre`.  Modelled as a prefix test on the
character lists (extensionally the behaviour of `String.startsWith`, but
kernel-reducible). -/
def jsStartsWith (s pre : String) : Bool :=
  pre.data.isPrefixOf s.data

/-- Embeds `handleFileChange` (lines 33-44) for the card of slot `slotId`.
`files` is the file list of the change event (`event.target.files`, empty
on user cancellation); `createURL` stands for the browser primitive
`URL.createObjectURL`.  The second component of the result counts the
`alert` calls made (the single blocking error notice).  The trailing
`event.target.value = ''` reset is a DOM-control effect with no bearing on
the gallery state and is not modelled. -/
def handleFileChange (createURL : JsFile → String) (slotId : Nat)
    (files : List JsFile) (st : GalleryState) : GalleryState × Nat :=
  match files.head? with
  | none => (st, 0)
  | some file =>
    if jsStartsWith file.type ("image/") then
      (handleImageUpdate slotId (createURL file) st, 0)
    else
      (st, 1)

/-- The rendering branch test of `ImageCard` (line 58): `image.src ? A : B`.
JavaScript truthiness sends both `null` and the empty string to the
placeholder branch `B`; this returns `true` exactly when the placeholder
branch is taken. -/
def rendersPlaceholder (img : ImageState) : Bool :=
  match img.src with
  | none => true
  | some s => s = ""

/-- A stand-in for a DOM element; only its presence matters to startup. -/
structure DomElement where
  id : String

/-- Embeds the startup sequence (lines 187-197): `document.getElementById('root')`
may return an element or `null`; on `null` the script throws
`new Error("Could not find root element to mount to")` before any
rendering, otherwise it mounts `App`, whose initial state is
`initialGalleryState`. -/
def startup (rootElement : Option DomElement) : Except String GalleryState :=
  match rootElement with
  | none => Except.error ("Could not find root element to mount to")
  | some _ => Except.ok initialGalleryState

/-- The gallery states reachable from the initial state through the source's
mutations.  The reference passed to `handleImageUpdate` at its only call
site is the result of `URL.createObjectURL`, which is always a non-empty
`blob:` URL (the spec's "non-empty displayable reference"), hence the
non-emptiness side condition on the update step. -/
inductive Reachable : GalleryState → Prop where
  | init : Reachable initialGalleryState
  | layout (m : Layout) {s : GalleryState} :
      Reachable s → Reachable (setLayout m s)
  | update (id : Nat) (ref : String) {s : GalleryState} :
      Reachable s → ref ≠ "" → Reachable (handleImageUpdate id ref s)

/-- The sequence of slot ids of a gallery state. -/
def slotIds (st : GalleryState) : List Nat :=
  st.images.map (fun img => img.id)

/-! ## Helper lemmas -/

/-- The placeholder reference is never the empty string. -/
lemma placeholderSrc_ne_empty (n : Nat) : placeholderSrc n ≠ "" := by
  intro h
  have h2 : (placeholderSrc n).length = 0 := by rw [h]; rfl
  simp [placeholderSrc, String.length_append] at h2
  exact absurd h2.1.1 (by decide)

/-- Every slot produced by `makeImages` carries the placeholder reference
derived from its own id. -/
lemma mem_makeImages {count : Nat} {img : ImageState}
    (h : img ∈ makeImages count) : img.src = some (placeholderSrc img.id) := by
  simp only [makeImages, List.mem_map, List.mem_range] at h
  obtain ⟨i, -, rfl⟩ := h
  rfl

/-- The ids of `makeImages count` are `1, 2, ..., count` in order. -/
lemma ids_makeImages (count : Nat) :
    (makeImages count).map (fun img => img.id) = List.range' 1 count := by
  simp only [makeImages, List.map_map, List.range'_eq_map_range]
  exact List.map_congr_left (fun i _ => Nat.add_comm i 1)

/-- `handleImageUpdate` never changes the sequence of slot ids. -/
lemma slotIds_handleImageUpdate (id : Nat) (ref : String) (st : GalleryState) :
    slotIds (handleImageUpdate id ref st) = slotIds st := by
  simp only [slotIds, handleImageUpdate, List.map_map]
  exact List.map_congr_left (fun img _ => by by_cases h : img.id = id <;> simp [h])

/-! ## Claim theorems -/

/-- C1: for every gallery state, every id matching an existing slot, and
every non-empty reference, `handleImageUpdate id ref` keeps the layout
mode, keeps the number of slots, sets `src = ref` on every slot whose id
matches (keeping its id), and leaves every other slot structurally equal
to its prior value. -/
theorem replaceSlotImage_frame (st : GalleryState) (id : Nat) (ref : String)
    ( _hid : id ∈ slotIds st) ( _href : ref ≠ "") :
    (handleImageUpdate id ref st).layout = st.layout ∧
    (handleImageUpdate id ref st).images.length = st.images.length ∧
    ∀ i : Nat, ∀ old : ImageState, st.images[i]? = some old →
      (handleImageUpdate id ref st).images[i]? =
        some (if old.id = id then ⟨old.id, some ref⟩ else old) := by
  refine ⟨rfl, by simp [handleImageUpdate], ?_⟩
  intro i old hold
  simp [handleImageUpdate, List.getElem?_map, hold]

/-- Witness for C1 at the initial state, slot 1, a concrete blob reference. -/
theorem replaceSlotImage_frame_witness :
    (handleImageUpdate 1 ("blob:local-ref-A") initialGalleryState).layout =
      initialGalleryState.layout ∧
    (handleImageUpdate 1 ("blob:local-ref-A") initialGalleryState).images.length =
      initialGalleryState.images.length ∧
    ∀ i : Nat, ∀ old : ImageState, initialGalleryState.images[i]? = some old →
      (handleImageUpdate 1 ("blob:local-ref-A") initialGalleryState).images[i]? =
        some (if old.id = 1 then ⟨old.id, some ("blob:local-ref-A")⟩ else old) :=
  replaceSlotImage_frame initialGalleryState 1 ("blob:local-ref-A")
    (by decide) (by decide)

/-- C2: for every `count > 0`, the seeding construction yields exactly
`count` slots, with ids exactly `1..count` in order, each slot holding the
non-empty default placeholder reference derived from its id. -/
theorem makeImages_spec (count : Nat) ( _hpos : 0 < count) :
    (makeImages count).length = count ∧
    (makeImages count).map (fun img => img.id) = List.range' 1 count ∧
    ∀ img ∈ makeImages count,
      img.src = some (placeholderSrc img.id) ∧ placeholderSrc img.id ≠ "" := by
  refine ⟨by simp [makeImages], ids_makeImages count, ?_⟩
  intro img hmem
  exact ⟨mem_makeImages hmem, placeholderSrc_ne_empty img.id⟩

/-- Witness for C2 at the configured count 16. -/
theorem makeImages_spec_witness :
    (makeImages 16).length = 16 ∧
    (makeImages 16).map (fun img => img.id) = List.range' 1 16 ∧
    ∀ img ∈ makeImages 16,
      img.src = some (placeholderSrc img.id) ∧ placeholderSrc img.id ≠ "" :=
  makeImages_spec 16 (by decide)

/-- C3: for every gallery state and every id matching no existing slot,
`handleImageUpdate id ref` returns the state unchanged (the function is
total, so no error is raised). -/
theorem replaceSlotImage_missing_noop (st : GalleryState) (id : Nat) (ref : String)
    (hid : id ∉ slotIds st) :
    handleImageUpdate id ref st = st := by
  cases st with
  | mk imgs ly =>
    simp only [slotIds, List.mem_map, not_exists] at hid
    simp only [handleImageUpdate, GalleryState.mk.injEq, and_true]
    have h1 : ∀ img ∈ imgs,
        (if img.id = id then (⟨img.id, some ref⟩ : ImageState) else img) = img := by
      intro img hmem
      have hne : img.id ≠ id := fun hh => (hid img) ⟨hmem, hh⟩
      simp [hne]
    calc imgs.map (fun img => if img.id = id then (⟨img.id, some ref⟩ : ImageState) else img)
        = imgs.map (fun img => img) := List.map_congr_left h1
      _ = imgs := List.map_id' imgs

/-- Witness for C3: id 99 does not occur among the initial ids. -/
theorem replaceSlotImage_missing_noop_witness :
    handleImageUpdate 99 ("blob:x") initialGalleryState = initialGalleryState :=
  replaceSlotImage_missing_noop initialGalleryState 99 ("blob:x") (by decide)

/-- C4: the id invariant — the slot ids are exactly `1..N` for the
configured `N = INITIAL_IMAGE_COUNT`, in order, with no duplicates and no
gaps — holds of the initial state and is preserved by `handleImageUpdate`
(any id and reference) and by `setLayout` (any mode). -/
theorem gallery_ids_invariant :
    slotIds initialGalleryState = List.range' 1 INITIAL_IMAGE_COUNT ∧
    (∀ st id ref, slotIds st = List.range' 1 INITIAL_IMAGE_COUNT →
      slotIds (handleImageUpdate id ref st) = List.range' 1 INITIAL_IMAGE_COUNT) ∧
    (∀ st m, slotIds st = List.range' 1 INITIAL_IMAGE_COUNT →
      slotIds (setLayout m st) = List.range' 1 INITIAL_IMAGE_COUNT) := by
  refine ⟨?_, ?_, ?_⟩
  · simpa [slotIds, initialGalleryState, initialImages] using
      ids_makeImages INITIAL_IMAGE_COUNT
  · intro st id ref h
    rw [slotIds_handleImageUpdate]
    exact h
  · intro st m h
    exact h

/-- Witness for C4: preservation applied at the initial state. -/
theorem gallery_ids_invariant_witness :
    slotIds (handleImageUpdate 3 ("blob:y") initialGalleryState) =
      List.range' 1 INITIAL_IMAGE_COUNT :=
  gallery_ids_invariant.2.1 initialGalleryState 3 ("blob:y") gallery_ids_invariant.1

/-- C5: when the selected file's declared MIME type does not begin with
`image/`, the handler raises exactly one alert and returns the gallery
state unchanged, so in particular every slot's `src` is unchanged. -/
theorem nonimage_selection_rejected (createURL : JsFile → String) (slotId : Nat)
    (files : List JsFile) (st : GalleryState) (file : JsFile)
    (hfile : files.head? = some file)
    (hmime : jsStartsWith file.type ("image/") = false) :
    handleFileChange createURL slotId files st = (st, 1) := by
  simp [handleFileChange, hfile, hmime]

/-- Witness for C5: a `text/plain` file selected on slot 1. -/
theorem nonimage_selection_rejected_witness :
    handleFileChange (fun _ => "blob:w") 1 [⟨"text/plain"⟩] initialGalleryState =
      (initialGalleryState, 1) :=
  nonimage_selection_rejected (fun _ => "blob:w") 1 [⟨"text/plain"⟩]
    initialGalleryState ⟨"text/plain"⟩ rfl (by decide)

/-- C6: `setLayout` is idempotent — applying the same mode twice yields
exactly the state obtained by applying it once. -/
theorem setLayout_idempotent (st : GalleryState) (m : Layout) :
    setLayout m (setLayout m st) = setLayout m st := rfl

/-- C7: `handleImageUpdate` is idempotent for every state, id (existing or
not), and reference: applying it twice yields the state obtained by
applying it once. -/
theorem replaceSlotImage_idempotent (st : GalleryState) (id : Nat) (ref : String) :
    handleImageUpdate id ref (handleImageUpdate id ref st) = handleImageUpdate id ref st := by
  cases st with
  | mk imgs ly =>
    simp only [handleImageUpdate, GalleryState.mk.injEq, and_true, List.map_map]
    refine List.map_congr_left ?_
    intro img hmem
    by_cases h : img.id = id <;> simp [h]

/-- C8: a change event carrying no file (the user dismissed the prompt) is
a no-op: the state is returned unchanged and no alert is raised. -/
theorem cancel_noop (createURL : JsFile → String) (slotId : Nat) (st : GalleryState) :
    handleFileChange createURL slotId [] st = (st, 0) := rfl

/-- C9: with no root element, startup fails with the fatal error before any
rendering; with a root element present, startup renders the application
with its initial state. -/
theorem startup_root_check :
    startup none = Except.error ("Could not find root element to mount to") ∧
    ∀ e : DomElement, startup (some e) = Except.ok initialGalleryState :=
  ⟨rfl, fun _ => rfl⟩

/-- C10: in every reachable gallery state, every slot's `src` is a present
(non-`none`) string, and the placeholder rendering branch of `ImageCard`
(JS truthiness test on `image.src`) is never taken. -/
theorem reachable_src_present (s : GalleryState) (hs : Reachable s) :
    ∀ img ∈ s.images, img.src.isSome = true ∧ rendersPlaceholder img = false := by
  induction hs with
  | init =>
    intro img hmem
    have hsrc : img.src = some (placeholderSrc img.id) := mem_makeImages hmem
    refine ⟨by simp [hsrc], ?_⟩
    simp [rendersPlaceholder, hsrc, placeholderSrc_ne_empty img.id]
  | layout m hr ih =>
    simpa [setLayout] using ih
  | update id ref hr hne ih =>
    intro img hmem
    simp only [handleImageUpdate, List.mem_map] at hmem
    obtain ⟨old, hold, rfl⟩ := hmem
    by_cases h : old.id = id
    · simp [h, rendersPlaceholder, hne]
    · simpa [h] using ih old hold

/-- Witness for C10 at the initial state and its first slot. -/
theorem reachable_src_present_witness :
    (⟨1, some (placeholderSrc 1)⟩ : ImageState).src.isSome = true ∧
    rendersPlaceholder ⟨1, some (placeholderSrc 1)⟩ = false :=
  reachable_src_present initialGalleryState Reachable.init
    ⟨1, some (placeholderSrc 1)⟩ (by decide)

end Photosite
